import Mathlib

/-!
Verification of the LED-matrix robot-face expression/animation engine.

Shallow embedding of the repository's expression catalogs, interpolated
transitions, speech/viseme engine and display drawing, translated from:

- `robot_face.py` and `virtual-face/robot_face.py` (namespace `RobotFace`:
  the point/line catalog, interpolated `animate_transition`, talk states),
- `virtual-face/expressions.py` (namespace `FacialExpressions`),
- `virtual-face/speech.py` (namespace `SpeechEngine`),
- `virtual-face/display.py` (namespace `MatrixDisplay`).

Machine reals: the Python code computes interpolation progress and timing in
binary floating point; the embedding uses exact integer/rational arithmetic
(the same idealization the specification's formulas make). Randomness is
modelled by passing the stream of pseudo-random draws as an explicit
function argument, and wall-clock-bounded loops by passing the number of
loop iterations as an explicit argument.
-/

/-- A grid coordinate (x, y), one LED cell. -/
abbrev Coord := Int × Int

/-- A line segment as an ordered pair of coordinates. -/
abbrev Seg := Coord × Coord

/-- The seven expression identifiers (`ExpressionType` enum, identical in
`robot_face.py`, `virtual-face/robot_face.py` and `virtual-face/face_types.py`). -/
inductive ExpressionType
  | HAPPY
  | SAD
  | SURPRISED
  | WINK
  | NEUTRAL
  | ANGRY
  | SLEEPING
deriving DecidableEq, BEq

/-- Mouth-openness states during speech (`TalkState` enum). -/
inductive TalkState
  | OPEN
  | CLOSED
  | PARTIAL
deriving DecidableEq, BEq

/-- The `Expression` dataclass: name, point primitives, line primitives, the
optional per-talk-state line lists (the Python `talk_lines` dict, modelled as
an association list; the empty list models `None`, matching the falsiness
test `if not expression.talk_lines`), and a default duration. -/
structure Expression where
  name : String
  points : List Coord
  lines : List Seg
  talk_lines : List (TalkState × List Seg)
  duration : ℚ
deriving DecidableEq

/-- One displayed frame: the point and line primitives handed to the canvas
after a clear. -/
structure Frame where
  points : List Coord
  lines : List Seg
deriving DecidableEq

/-- Rounding half-up of x / d for d > 0: floor((2x + d) / (2d)). -/
def round_half (x d : Int) : Int := Int.fdiv (2 * x + d) (2 * d)

/-- Modelled from the spec: "straight-line rasterization between endpoints;
degenerate segments render as a single pixel". This is the PIL
`ImageDraw.line` primitive, which is external to this repository; it is
modelled as the standard rounding DDA: n = max(|dx|, |dy|) steps, the i-th
pixel offset being round(i*dx/n, i*dy/n). -/
def line_pixels (s e : Coord) : List Coord :=
  let n : Nat := max (e.1 - s.1).natAbs (e.2 - s.2).natAbs
  if n = 0 then [s]
  else
    (List.range (n + 1)).map
      (fun i => (s.1 + round_half ((i : Int) * (e.1 - s.1)) (n : Int),
                 s.2 + round_half ((i : Int) * (e.2 - s.2)) (n : Int)))

/-- The pixels lit by one frame drawn directly on a PIL canvas
(`draw.point` for each point, `draw.line` for each segment). -/
def frame_pixels (f : Frame) : List Coord :=
  f.points ++ f.lines.flatMap (fun s => line_pixels s.1 s.2)

/-- Two pixel lists light exactly the same pixels. -/
def pixel_identical (l1 l2 : List Coord) : Prop := ∀ p, p ∈ l1 ↔ p ∈ l2

/-- Python `range(n)` for an integer argument: [0, 1, ..., n-1], empty when
n ≤ 0. -/
def pyRange (n : Int) : List Int := (List.range n.toNat).map Int.ofNat

/-- Python `str.split()` word count: the number of maximal nonempty runs of
non-whitespace characters. The Boolean argument records whether the scan is
currently inside a word. -/
def pySplitCount : List Char → Bool → Nat
  | [], _ => 0
  | c :: rest, inWord =>
    if c.isWhitespace then pySplitCount rest false
    else (if inWord then 0 else 1) + pySplitCount rest true

/-- One draw of `random.choices(states, weights=[0.3, 0.4, 0.3])[0]` over
[OPEN, PARTIAL, CLOSED], given the uniform draw r in [0,1): cumulative
weights 0.3, 0.7, 1.0, first bucket whose cumulative weight exceeds r. -/
def weightedChoice (r : ℚ) : TalkState :=
  if r < 3/10 then TalkState.OPEN
  else if r < 7/10 then TalkState.PARTIAL
  else TalkState.CLOSED

/-- Errors raised by `animate_transition` (both are `ValueError` /
`ZeroDivisionError` in Python; no `InvalidParameterError`-style validation of
`steps` exists in the code). -/
inductive TransError
  | unknownExpression
  | zeroDivision
deriving DecidableEq

/-- Errors raised by `talk` (Python raises `ValueError` with a
"does not support talking" message for the unsupported case). -/
inductive TalkError
  | unknownExpression
  | unsupported
deriving DecidableEq

namespace RobotFace

/-- The expression catalog of `robot_face.py` / `virtual-face/robot_face.py`
(identical points/lines; talk_lines for HAPPY and NEUTRAL are present only in
the `virtual-face` revision and are irrelevant to the plain catalog's
operations). -/
def expressions : ExpressionType → Expression
  | ExpressionType.HAPPY =>
    ⟨"happy", [(2,2),(5,2)], [((1,5),(6,5)), ((2,6),(5,6))],
      [(TalkState.OPEN, [((1,5),(6,5)), ((2,6),(5,6)), ((3,4),(4,4))]),
       (TalkState.CLOSED, [((1,5),(6,5)), ((2,6),(5,6))]),
       (TalkState.PARTIAL, [((1,5),(6,5)), ((2,6),(5,6)), ((3,5),(4,5))])], 1⟩
  | ExpressionType.SAD =>
    ⟨"sad", [(2,2),(5,2)], [((1,5),(6,5)), ((2,4),(5,4))], [], 1⟩
  | ExpressionType.SURPRISED =>
    ⟨"surprised", [(2,2),(5,2)], [((3,5),(4,5)), ((3,6),(4,6))], [], 1⟩
  | ExpressionType.WINK =>
    ⟨"wink", [(5,2)], [((2,2),(2,2)), ((1,5),(6,5)), ((2,6),(5,6))], [], 1⟩
  | ExpressionType.NEUTRAL =>
    ⟨"neutral", [(2,2),(5,2)], [((2,5),(5,5))],
      [(TalkState.OPEN, [((2,4),(5,4))]),
       (TalkState.CLOSED, [((2,5),(5,5))]),
       (TalkState.PARTIAL, [((2,4),(5,4)), ((2,5),(5,5))])], 1⟩
  | ExpressionType.ANGRY =>
    ⟨"angry", [(2,2),(5,2)], [((1,5),(6,5)), ((2,4),(3,4)), ((4,4),(5,4))], [], 1⟩
  | ExpressionType.SLEEPING =>
    ⟨"sleeping", [(5,2)], [((1,2),(3,2)), ((2,5),(5,5))], [], 1⟩

/-- `_draw_expression`: clear the canvas, draw the points, then the lines
(the `if expression.lines` truthiness guard only skips drawing an empty
list, which draws nothing either way). -/
def draw_expression (e : Expression) : Frame := ⟨e.points, e.lines⟩

/-- One interpolated coordinate of `animate_transition`:
`int(p1 + (p2 - p1) * progress)` with `progress = i / steps`. The exact
value is (a*steps + (b-a)*i) / steps; Python `int()` truncates toward zero,
which is `Int.tdiv`. -/
def interp (a b i steps : Int) : Int := Int.tdiv (a * steps + (b - a) * i) steps

/-- Interpolation of one point. -/
def interp_point (p q : Coord) (i steps : Int) : Coord :=
  (interp p.1 q.1 i steps, interp p.2 q.2 i steps)

/-- Interpolation of one segment (both endpoints). -/
def interp_seg (s t : Seg) (i steps : Int) : Seg :=
  (interp_point s.1 t.1 i steps, interp_point s.2 t.2 i steps)

/-- The frame drawn at loop index i of `animate_transition`: points and lines
of the two expressions are paired positionally by `zip` (which silently drops
trailing primitives of the longer list), each pair interpolated; lines are
drawn only when both expressions have a nonempty (truthy) line list. -/
def transition_frame (A B : Expression) (steps i : Int) : Frame :=
  ⟨(A.points.zip B.points).map (fun pq => interp_point pq.1 pq.2 i steps),
   if A.lines = [] ∨ B.lines = [] then []
   else (A.lines.zip B.lines).map (fun st => interp_seg st.1 st.2 i steps)⟩

/-- `animate_transition(from, to, steps, duration)`: the membership check on
the two enum arguments always passes (the catalog is total), then
`step_duration = duration / steps` is computed before the loop — a
`ZeroDivisionError` when steps = 0 — and the loop runs over
`range(steps + 1)` (empty when steps < 0), drawing one interpolated frame
per index. The returned list is the sequence of drawn frames. -/
def animate_transition (a b : ExpressionType) (steps : Int) :
    Except TransError (List Frame) :=
  if steps = 0 then Except.error TransError.zeroDivision
  else Except.ok ((pyRange (steps + 1)).map
    (fun i => transition_frame (expressions a) (expressions b) steps i))

/-- `_draw_talking_expression`: points, then the talk-state mouth lines when
the state is present in `talk_lines`, with fallback to the normal lines. -/
def draw_talking_expression (e : Expression) (st : TalkState) : Frame :=
  ⟨e.points,
   match List.lookup st e.talk_lines with
   | some ls => ls
   | none => e.lines⟩

/-- `talk(expression_type, duration, words_per_minute)` of
`virtual-face/robot_face.py`: raises for an expression without `talk_lines`
BEFORE the animation loop starts (so nothing is drawn on error); otherwise
draws one weighted-random talk state per iteration of the wall-clock loop.
`n` is the number of loop iterations; `rand` the stream of uniform draws. -/
def talk (e : ExpressionType) (n : Nat) (rand : Nat → ℚ) :
    Except TalkError (List Frame) :=
  if (expressions e).talk_lines = [] then Except.error TalkError.unsupported
  else Except.ok ((List.range n).map
    (fun k => draw_talking_expression (expressions e) (weightedChoice (rand k))))

end RobotFace

namespace MatrixDisplay

/-- The rectangle test of `MatrixDisplay.draw_lines`: both deltas nonzero and
(x-aligned or y-aligned or |dx| = |dy|) — given the first two conjuncts this
fires exactly for the 45-degree diagonals. -/
def is_rectangle (s e : Coord) : Bool :=
  decide (0 < (s.1 - e.1).natAbs) && decide (0 < (s.2 - e.2).natAbs) &&
    (decide (s.1 = e.1) || decide (s.2 = e.2) ||
      decide ((s.1 - e.1).natAbs = (s.2 - e.2).natAbs))

/-- Modelled from the spec: the PIL `draw.rectangle` primitive (external to
this repository) with outline and fill — every pixel of the axis-aligned box
spanned by the two corners. -/
def rectangle_pixels (s e : Coord) : List Coord :=
  (List.range ((max s.1 e.1 - min s.1 e.1).toNat + 1)).flatMap
    (fun i => (List.range ((max s.2 e.2 - min s.2 e.2).toNat + 1)).map
      (fun j => (min s.1 e.1 + (i : Int), min s.2 e.2 + (j : Int))))

/-- The pixels lit for one segment by `MatrixDisplay.draw_lines`: a filled
rectangle when `is_rectangle` holds, a straight line otherwise. -/
def draw_segment (s e : Coord) : List Coord :=
  if is_rectangle s e then rectangle_pixels s e else line_pixels s e

/-- `MatrixDisplay.draw_lines(lines)`: pixels of every segment. -/
def draw_lines (segs : List Seg) : List Coord :=
  segs.flatMap (fun p => draw_segment p.1 p.2)

end MatrixDisplay

namespace FacialExpressions

/-- `create_eye_happy(x, y)`. -/
def create_eye_happy (x y : Int) : List Seg :=
  [((x, y), (x + 2, y)),
   ((x, y + 1), (x + 2, y + 1)),
   ((x, y), (x, y + 1)),
   ((x + 2, y), (x + 2, y + 1))]

/-- `create_eye_sad(x, y)` (with tear). -/
def create_eye_sad (x y : Int) : List Seg :=
  [((x, y), (x + 2, y)),
   ((x, y + 1), (x + 2, y + 1)),
   ((x, y), (x, y + 1)),
   ((x + 2, y), (x + 2, y + 1)),
   ((x + 1, y + 2), (x + 1, y + 2))]

/-- `create_eye_surprised(x, y)`. -/
def create_eye_surprised (x y : Int) : List Seg :=
  [((x, y), (x + 2, y)),
   ((x, y + 1), (x + 2, y + 1)),
   ((x, y), (x, y + 1)),
   ((x + 2, y), (x + 2, y + 1)),
   ((x + 1, y + 2), (x + 1, y + 2))]

/-- `create_eye_wink(x, y)`. -/
def create_eye_wink (x y : Int) : List Seg :=
  [((x, y + 1), (x + 2, y + 1))]

/-- `create_eye_neutral(x, y)`. -/
def create_eye_neutral (x y : Int) : List Seg :=
  [((x + 1, y + 1), (x + 1, y + 1))]

/-- `create_eye_angry(x, y)`. -/
def create_eye_angry (x y : Int) : List Seg :=
  [((x, y), (x + 2, y + 1)),
   ((x + 1, y), (x + 1, y + 1))]

/-- `create_eye_sleeping(x, y)`. -/
def create_eye_sleeping (x y : Int) : List Seg :=
  [((x, y + 1), (x + 2, y + 1)),
   ((x + 1, y), (x + 2, y)),
   ((x, y + 2), (x + 1, y + 2))]

/-- Eye anchor positions used in `FacialExpressions.__init__`. -/
def left_pos : Int := 0

/-- Right eye anchor. -/
def right_pos : Int := 5

/-- Eye row anchor. -/
def y_pos : Int := 1

/-- The expression catalog of `virtual-face/expressions.py` (the most
feature-complete, viseme-era revision). The commented-out source lines
(frown/smile bottoms) are omitted exactly as in the source. -/
def expressions : ExpressionType → Expression
  | ExpressionType.HAPPY =>
    ⟨"happy", [],
      create_eye_happy left_pos y_pos ++ create_eye_happy right_pos y_pos ++
        [((1,6),(6,6)), ((2,7),(5,7)), ((1,6),(2,7)), ((5,7),(6,6))],
      [(TalkState.OPEN,
         create_eye_happy left_pos y_pos ++ create_eye_happy right_pos y_pos ++
           [((1,5),(2,5)), ((5,5),(6,5)), ((1,6),(2,6)), ((5,6),(6,6)),
            ((1,5),(2,6)), ((5,6),(6,5))]),
       (TalkState.CLOSED,
         create_eye_happy left_pos y_pos ++ create_eye_happy right_pos y_pos ++
           [((1,6),(6,6)), ((2,7),(5,7)), ((1,6),(2,7)), ((5,7),(6,6))]),
       (TalkState.PARTIAL,
         create_eye_happy left_pos y_pos ++ create_eye_happy right_pos y_pos ++
           [((1,6),(6,6)), ((2,7),(5,7)), ((1,6),(2,7)), ((5,7),(6,6)),
            ((1,5),(2,5)), ((5,5),(6,5))])], 1⟩
  | ExpressionType.SAD =>
    ⟨"sad", [],
      create_eye_sad left_pos y_pos ++ create_eye_sad right_pos y_pos ++
        [((1,6),(6,6)), ((1,6),(2,5)), ((5,5),(6,6))],
      [(TalkState.OPEN,
         create_eye_sad left_pos y_pos ++ create_eye_sad right_pos y_pos ++
           [((1,5),(2,5)), ((5,5),(6,5)), ((1,6),(2,6)), ((5,6),(6,6)),
            ((1,5),(2,6)), ((5,6),(6,5))]),
       (TalkState.CLOSED,
         create_eye_sad left_pos y_pos ++ create_eye_sad right_pos y_pos ++
           [((1,6),(6,6)), ((1,6),(2,5)), ((5,5),(6,6))]),
       (TalkState.PARTIAL,
         create_eye_sad left_pos y_pos ++ create_eye_sad right_pos y_pos ++
           [((1,6),(6,6)), ((1,6),(2,5)), ((5,5),(6,6)),
            ((1,5),(2,5)), ((5,5),(6,5))])], 1⟩
  | ExpressionType.SURPRISED =>
    ⟨"surprised", [],
      create_eye_surprised left_pos y_pos ++ create_eye_surprised right_pos y_pos ++
        [((2,6),(5,6)), ((2,7),(5,7)), ((2,6),(2,7)), ((5,6),(5,7))],
      [(TalkState.OPEN,
         create_eye_surprised left_pos y_pos ++ create_eye_surprised right_pos y_pos ++
           [((2,5),(3,5)), ((4,5),(5,5)), ((2,6),(3,6)), ((4,6),(5,6)),
            ((2,5),(2,6)), ((5,5),(5,6))]),
       (TalkState.CLOSED,
         create_eye_surprised left_pos y_pos ++ create_eye_surprised right_pos y_pos ++
           [((2,6),(5,6)), ((2,7),(5,7)), ((2,6),(2,7)), ((5,6),(5,7))]),
       (TalkState.PARTIAL,
         create_eye_surprised left_pos y_pos ++ create_eye_surprised right_pos y_pos ++
           [((2,6),(5,6)), ((2,7),(5,7)), ((2,6),(2,7)), ((5,6),(5,7)),
            ((2,5),(3,5)), ((4,5),(5,5))])], 1⟩
  | ExpressionType.WINK =>
    ⟨"wink", [],
      create_eye_wink left_pos y_pos ++ create_eye_happy right_pos y_pos ++
        [((1,6),(6,6)), ((1,6),(2,7)), ((5,7),(6,6))],
      [(TalkState.OPEN,
         create_eye_wink left_pos y_pos ++ create_eye_happy right_pos y_pos ++
           [((1,5),(2,5)), ((5,5),(6,5)), ((1,6),(2,6)), ((5,6),(6,6)),
            ((1,5),(2,6)), ((5,6),(6,5))]),
       (TalkState.CLOSED,
         create_eye_wink left_pos y_pos ++ create_eye_happy right_pos y_pos ++
           [((1,6),(6,6)), ((1,6),(2,7)), ((5,7),(6,6))]),
       (TalkState.PARTIAL,
         create_eye_wink left_pos y_pos ++ create_eye_happy right_pos y_pos ++
           [((1,6),(6,6)), ((2,7),(5,7)), ((1,6),(2,7)), ((5,7),(6,6)),
            ((1,5),(2,5)), ((5,5),(6,5))])], 1⟩
  | ExpressionType.NEUTRAL =>
    ⟨"neutral", [],
      create_eye_neutral left_pos y_pos ++ create_eye_neutral right_pos y_pos ++
        [((2,6),(5,6))],
      [(TalkState.OPEN,
         create_eye_neutral left_pos y_pos ++ create_eye_neutral right_pos y_pos ++
           [((2,5),(3,5)), ((4,5),(5,5))]),
       (TalkState.CLOSED,
         create_eye_neutral left_pos y_pos ++ create_eye_neutral right_pos y_pos ++
           [((2,6),(5,6))]),
       (TalkState.PARTIAL,
         create_eye_neutral left_pos y_pos ++ create_eye_neutral right_pos y_pos ++
           [((2,5),(3,5)), ((4,5),(5,5)), ((2,6),(5,6))])], 1⟩
  | ExpressionType.ANGRY =>
    ⟨"angry", [],
      create_eye_angry left_pos y_pos ++ create_eye_angry right_pos y_pos ++
        [((1,6),(6,6)), ((2,5),(3,5)), ((4,5),(5,5)), ((1,6),(2,5)), ((5,5),(6,6))],
      [(TalkState.OPEN,
         create_eye_angry left_pos y_pos ++ create_eye_angry right_pos y_pos ++
           [((1,5),(2,5)), ((5,5),(6,5)), ((1,6),(2,6)), ((5,6),(6,6)),
            ((1,5),(2,6)), ((5,6),(6,5))]),
       (TalkState.CLOSED,
         create_eye_angry left_pos y_pos ++ create_eye_angry right_pos y_pos ++
           [((1,6),(6,6)), ((2,5),(3,5)), ((4,5),(5,5)), ((1,6),(2,5)), ((5,5),(6,6))]),
       (TalkState.PARTIAL,
         create_eye_angry left_pos y_pos ++ create_eye_angry right_pos y_pos ++
           [((1,6),(6,6)), ((2,5),(3,5)), ((4,5),(5,5)), ((1,6),(2,5)), ((5,5),(6,6)),
            ((1,5),(2,5)), ((5,5),(6,5))])], 1⟩
  | ExpressionType.SLEEPING =>
    ⟨"sleeping", [],
      create_eye_sleeping left_pos y_pos ++ create_eye_sleeping right_pos y_pos ++
        [((2,6),(5,6))],
      [(TalkState.OPEN,
         create_eye_sleeping left_pos y_pos ++ create_eye_sleeping right_pos y_pos ++
           [((2,5),(3,5)), ((4,5),(5,5))]),
       (TalkState.CLOSED,
         create_eye_sleeping left_pos y_pos ++ create_eye_sleeping right_pos y_pos ++
           [((2,6),(5,6))]),
       (TalkState.PARTIAL,
         create_eye_sleeping left_pos y_pos ++ create_eye_sleeping right_pos y_pos ++
           [((2,5),(3,5)), ((4,5),(5,5)), ((2,6),(5,6))])], 1⟩

/-- `draw_expression`: clear, then hand the expression's lines to the
display sink (points are never drawn here; the catalog has none). -/
def draw_expression (e : ExpressionType) : Frame := ⟨[], (expressions e).lines⟩

/-- `animate_transition` of `expressions.py`: alternate the two expressions
for `range(steps)` iterations (from-expression on even indices), then always
end by drawing the target expression. The `time.sleep(duration / steps)` call
sits inside the loop body, so it is never reached when steps ≤ 0 and no
division error occurs. No validation of `steps` exists. -/
def animate_transition (a b : ExpressionType) (steps : Int) : List Frame :=
  ((pyRange steps).map
    (fun i => if i % 2 = 0 then draw_expression a else draw_expression b)) ++
    [draw_expression b]

end FacialExpressions

namespace SpeechEngine

/-- `VISEME_MOUTHS`: fixed viseme-tag → mouth-lines table of `speech.py`. -/
def VISEME_MOUTHS : List (String × List Seg) :=
  [("closed", [((2,7),(5,7)), ((2,6),(5,6))]),
   ("wide", [((1,7),(2,6)), ((2,6),(3,5)), ((3,5),(4,5)), ((4,5),(5,6)),
             ((5,6),(6,7)), ((2,7),(5,7))]),
   ("round", [((3,5),(4,5)), ((3,7),(4,7)), ((3,5),(3,7)), ((4,5),(4,7)),
              ((2,6),(5,6))]),
   ("teeth", [((2,6),(5,6)), ((2,7),(5,7)), ((2,5),(5,5))]),
   ("open", [((2,5),(2,7)), ((5,5),(5,7)), ((2,7),(5,7)), ((2,5),(5,5))]),
   ("neutral", [((2,6),(5,6))])]

/-- `LETTER_TO_VISEME`: the dict built from the five per-class letter
strings, as a membership-based lookup (the classes are disjoint, so the
order of the tests is immaterial). -/
def LETTER_TO_VISEME (c : Char) : Option String :=
  if "MBPmbp".toList.contains c then some "closed"
  else if "AEIaei".toList.contains c then some "wide"
  else if "OUWouw".toList.contains c then some "round"
  else if "FVfv".toList.contains c then some "teeth"
  else if "CDGKNSZLQXHJRTcdgknszlqxhjrt".toList.contains c then some "open"
  else none

/-- The mouth of the "neutral" entry of `VISEME_MOUTHS`, the default of
`VISEME_MOUTHS.get(viseme, VISEME_MOUTHS["neutral"])`. -/
def neutral_mouth : List Seg := [((2,6),(5,6))]

/-- `VISEME_MOUTHS.get(viseme, VISEME_MOUTHS["neutral"])`. -/
def mouth_for (v : String) : List Seg :=
  (List.lookup v VISEME_MOUTHS).getD neutral_mouth

/-- `_get_talk_state`: the generator yielding one independent
`random.choices(states, weights)[0]` per pull; `rand` is the stream of
uniform draws, `n` the pull index. -/
def get_talk_state (rand : Nat → ℚ) (n : Nat) : TalkState :=
  weightedChoice (rand n)

/-- `list(VISEME_MOUTHS.keys())`, in dict insertion order. -/
def visemeKeys : List String := VISEME_MOUTHS.map Prod.fst

/-- One draw of `random.choice(visemes)` in `_talk_with_visemes`; `rand` is
the stream of random indices (reduced modulo the pool size). -/
def uniform_viseme (rand : Nat → Nat) (n : Nat) : String :=
  visemeKeys.getD (rand n % visemeKeys.length) "neutral"

/-- `_draw_viseme(expression, viseme)`: clear, then draw the expression's
lines whose BOTH endpoints have y < 5 (the eye region above the mouth rows
5–7) followed by the mouth looked up in `VISEME_MOUTHS` with the "neutral"
entry as default. -/
def draw_viseme (expr : Expression) (v : String) : List Seg :=
  expr.lines.filter (fun l => decide (l.1.2 < 5) && decide (l.2.2 < 5)) ++
    mouth_for v

/-- The sequence of line lists drawn by the untimed branch of
`_talk_with_visemes` (no phrase): one uniformly random viseme per iteration
of the wall-clock loop; `n` is the number of iterations. -/
def talk_frames (expr : Expression) (rand : Nat → Nat) (n : Nat) :
    List (List Seg) :=
  (List.range n).map (fun k => draw_viseme expr (uniform_viseme rand k))

/-- ASCII model of Python `str.isalnum()`. -/
def pyIsAlnum (c : Char) : Bool := c.isAlpha || c.isDigit

/-- The viseme sequence of the phrase branch of `_talk_with_visemes`:
`[LETTER_TO_VISEME.get(c, "neutral") for c in phrase if c.isalnum()]`, with
`["neutral"]` when empty. -/
def viseme_sequence (phrase : String) : List String :=
  let s := (phrase.toList.filter pyIsAlnum).map
    (fun c => (LETTER_TO_VISEME c).getD "neutral")
  if s = [] then ["neutral"] else s

/-- `len(phrase.split())`. -/
def word_count (phrase : String) : Nat := pySplitCount phrase.toList false

/-- `total_time = (len(phrase.split()) * 60) / words_per_minute if
words_per_minute else 2.0`. -/
def total_time (phrase : String) (wpm : ℚ) : ℚ :=
  if wpm ≠ 0 then ((word_count phrase : ℚ) * 60) / wpm else 2

/-- `viseme_time = total_time / total_visemes`. -/
def viseme_time (phrase : String) (wpm : ℚ) : ℚ :=
  total_time phrase wpm / ((viseme_sequence phrase).length : ℚ)

/-- The sequence of line lists drawn by `say_phrase` → `_talk_with_visemes`
for a phrase: one `_draw_viseme` per element of the viseme sequence. -/
def say_frames (expr : Expression) (phrase : String) : List (List Seg) :=
  (viseme_sequence phrase).map (draw_viseme expr)

end SpeechEngine

/-- Modelled from the spec's words for comparison with the code: the claimed
coordinate `round(a + (b - a) * ease(progress))` with `ease` the identity,
i.e. round-half-up of (a*steps + (b-a)*i) / steps. -/
def spec_round_linear (a b i steps : Int) : Int :=
  round_half (a * steps + (b - a) * i) steps

/-- Modelled from the spec's words for comparison with the code: the claimed
coordinate with `ease` the smoothstep curve 3p² - 2p³ at p = i / steps,
i.e. round-half-up of (a*steps³ + (b-a)*(3*i²*steps - 2*i³)) / steps³. -/
def spec_round_smoothstep (a b i steps : Int) : Int :=
  round_half (a * (steps * steps * steps) +
      (b - a) * (3 * (i * i) * steps - 2 * (i * i * i)))
    (steps * steps * steps)

/-! ## Helper lemmas -/

/-- At i = steps the interpolated coordinate is exactly the target. -/
theorem interp_last (a b steps : Int) (h : steps ≠ 0) :
    RobotFace.interp a b steps steps = b := by
  unfold RobotFace.interp
  have hx : a * steps + (b - a) * steps = b * steps := by ring
  rw [hx]
  exact Int.mul_tdiv_cancel _ h

/-- At i = steps the interpolated point is exactly the target point. -/
theorem interp_point_last (p q : Coord) (steps : Int) (h : steps ≠ 0) :
    RobotFace.interp_point p q steps steps = q := by
  unfold RobotFace.interp_point
  rw [interp_last _ _ _ h, interp_last _ _ _ h]

/-- At i = steps the interpolated segment is exactly the target segment. -/
theorem interp_seg_last (s t : Seg) (steps : Int) (h : steps ≠ 0) :
    RobotFace.interp_seg s t steps steps = t := by
  unfold RobotFace.interp_seg
  rw [interp_point_last _ _ _ h, interp_point_last _ _ _ h]

/-- Mapping a right-projection-like function over a zip returns the second
list, whenever the second list is no longer than the first. -/
theorem zip_map_snd {α : Type} (g : α → α → α) (hg : ∀ x y, g x y = y) :
    ∀ (l1 l2 : List α), l2.length ≤ l1.length →
      (l1.zip l2).map (fun pq => g pq.1 pq.2) = l2
  | _, [], _ => by simp
  | [], _ :: _, h => by simp at h
  | a :: t1, b :: t2, h => by
    rw [List.zip_cons_cons, List.map_cons, zip_map_snd g hg t1 t2 (by simpa using h)]
    simp [hg]

/-- getLast? of a function mapped over range (m+1). -/
theorem getLast_map_range {α : Type} (m : Nat) (f : Nat → α) :
    ((List.range (m + 1)).map f).getLast? = some (f m) := by
  rw [List.range_succ, List.map_append]
  exact List.getLast?_concat _

/-- Index access into a zipped-and-mapped pair of lists. -/
theorem getElem_zip_map {α β γ : Type} (f : α → β → γ) :
    ∀ (l1 : List α) (l2 : List β) (j : Nat) (x : α) (y : β),
      l1[j]? = some x → l2[j]? = some y →
      ((l1.zip l2).map (fun p => f p.1 p.2))[j]? = some (f x y)
  | [], _, j, x, y, h1, _ => by simp at h1
  | _ :: _, [], j, x, y, _, h2 => by simp at h2
  | a :: t1, b :: t2, 0, x, y, h1, h2 => by
    simp only [List.getElem?_cons_zero, Option.some.injEq] at h1 h2
    simp [List.zip_cons_cons, h1, h2]
  | a :: t1, b :: t2, j + 1, x, y, h1, h2 => by
    simp only [List.getElem?_cons_succ] at h1 h2
    simpa [List.zip_cons_cons] using getElem_zip_map f t1 t2 j x y h1 h2

/-- Python range(s+1) for 0 ≤ s ends with s. -/
theorem pyRange_succ (s : Int) (hs : 0 ≤ s) : pyRange (s + 1) = pyRange s ++ [s] := by
  unfold pyRange
  have h1 : (s + 1).toNat = s.toNat + 1 := by omega
  have h2 : ((s.toNat : Int)) = s := by omega
  rw [h1, List.range_succ, List.map_append]
  simp [h2]

/-- The frame drawn at loop index steps (the final frame) equals drawing the
target expression directly, whenever the target's primitive counts do not
exceed the source's. -/
theorem transition_frame_last (A B : Expression) (steps : Int) (h : steps ≠ 0)
    (hp : B.points.length ≤ A.points.length)
    (hl : B.lines.length ≤ A.lines.length) :
    RobotFace.transition_frame A B steps steps = RobotFace.draw_expression B := by
  unfold RobotFace.transition_frame RobotFace.draw_expression
  congr 1
  · exact zip_map_snd _ (fun x y => interp_point_last x y steps h) A.points B.points hp
  · by_cases hB : B.lines = []
    · simp [hB]
    · have hA : A.lines ≠ [] := by
        intro hA0
        rw [hA0] at hl
        simp at hl
        exact hB hl
      rw [if_neg (by simp [hA, hB])]
      exact zip_map_snd _ (fun x y => interp_seg_last x y steps h) A.lines B.lines hl

/-! ## Claim theorems -/

/-- C1 (amended): the last frame drawn by a transition is pixel-identical to
drawing the target expression directly — unconditionally for the
`expressions.py` variant (which always ends with `draw_expression(to)`), and
for the interpolation-based `robot_face.py` variant whenever the target's
point and line counts do not exceed the source's (otherwise `zip` drops the
target's trailing primitives from the final frame; see the counterexample).
Equal frames draw identical primitives and therefore identical pixels. -/
theorem C1_last_frame :
    (∀ (a b : ExpressionType) (steps : Int), 1 ≤ steps →
      (RobotFace.expressions b).points.length ≤ (RobotFace.expressions a).points.length →
      (RobotFace.expressions b).lines.length ≤ (RobotFace.expressions a).lines.length →
      ∃ frames, RobotFace.animate_transition a b steps = Except.ok frames ∧
        frames.getLast? = some (RobotFace.draw_expression (RobotFace.expressions b))) ∧
    (∀ (a b : ExpressionType) (steps : Int),
      (FacialExpressions.animate_transition a b steps).getLast? =
        some (FacialExpressions.draw_expression b)) := by
  constructor
  · intro a b steps hs hp hl
    have hne : steps ≠ 0 := by omega
    refine ⟨(pyRange (steps + 1)).map
      (fun i => RobotFace.transition_frame
        (RobotFace.expressions a) (RobotFace.expressions b) steps i), ?_, ?_⟩
    · unfold RobotFace.animate_transition
      rw [if_neg hne]
    · rw [pyRange_succ steps (by omega), List.map_append]
      simp only [List.map_cons, List.map_nil]
      rw [List.getLast?_concat]
      rw [transition_frame_last _ _ _ hne hp hl]
  · intro a b steps
    unfold FacialExpressions.animate_transition
    exact List.getLast?_concat _

/-- Witness for C1_last_frame: HAPPY → NEUTRAL with 2 steps ends exactly on
the NEUTRAL frame. -/
theorem C1_last_frame_witness :
    ∃ frames,
      RobotFace.animate_transition ExpressionType.HAPPY ExpressionType.NEUTRAL 2 =
        Except.ok frames ∧
      frames.getLast? =
        some (RobotFace.draw_expression (RobotFace.expressions ExpressionType.NEUTRAL)) :=
  C1_last_frame.1 ExpressionType.HAPPY ExpressionType.NEUTRAL 2
    (by decide) (by decide) (by decide)

/-- C1 counterexample: transitioning NEUTRAL → HAPPY (1 line → 2 lines), the
last frame of `robot_face.py`'s `animate_transition` draws only HAPPY's first
line, so pixel (2,6) of HAPPY's second smile line is lit by drawing HAPPY
directly but not by the transition's last frame: the claim's "pixel-identical
for every pair A, B" fails. -/
theorem C1_counterexample :
    (RobotFace.animate_transition ExpressionType.NEUTRAL ExpressionType.HAPPY 1).toOption.bind
        List.getLast? = some ⟨[(2,2),(5,2)], [((1,5),(6,5))]⟩ ∧
    decide (((2,6) : Coord) ∈
      frame_pixels (RobotFace.draw_expression
        (RobotFace.expressions ExpressionType.HAPPY))) = true ∧
    decide (((2,6) : Coord) ∈
      frame_pixels (⟨[(2,2),(5,2)], [((1,5),(6,5))]⟩ : Frame)) = false := by
  decide

/-- C2 (amended): each untimed mouth-shape draw is selected independently of
everything previously drawn — `_talk_with_visemes` picks uniformly among all
six viseme keys and `_get_talk_state` picks a weighted draw over the three
talk states, in both cases from the full candidate pool, with no exclusion of
the previously drawn shape and no renormalization: the n-th draw depends only
on the n-th random value. -/
theorem C2_memoryless :
    ∀ (r1 r2 : Nat → Nat) (q1 q2 : Nat → ℚ) (n : Nat),
      r1 n = r2 n → q1 n = q2 n →
      SpeechEngine.uniform_viseme r1 n = SpeechEngine.uniform_viseme r2 n ∧
      SpeechEngine.get_talk_state q1 n = SpeechEngine.get_talk_state q2 n := by
  intro r1 r2 q1 q2 n h1 h2
  unfold SpeechEngine.uniform_viseme SpeechEngine.get_talk_state
  rw [h1, h2]
  exact ⟨rfl, rfl⟩

/-- Witness for C2_memoryless at two concrete random streams agreeing at 0. -/
theorem C2_memoryless_witness :
    SpeechEngine.uniform_viseme (fun _ => 3) 0 =
      SpeechEngine.uniform_viseme (fun k => 3 + 0 * k) 0 ∧
    SpeechEngine.get_talk_state (fun _ => 1/4) 0 =
      SpeechEngine.get_talk_state (fun k => 1/4 + 0 * k) 0 :=
  C2_memoryless (fun _ => 3) (fun k => 3 + 0 * k)
    (fun _ => 1/4) (fun k => 1/4 + 0 * k) 0 (by norm_num) (by norm_num)

/-- C2 counterexample: with the (possible) random stream that repeats the
same draw, the untimed talk loop draws the same mouth shape twice in direct
succession although all six viseme keys (respectively all three weighted
talk states) are available — there is no previous-state exclusion. -/
theorem C2_counterexample :
    (SpeechEngine.talk_frames (FacialExpressions.expressions ExpressionType.NEUTRAL)
        (fun _ => 0) 2)[0]? =
      (SpeechEngine.talk_frames (FacialExpressions.expressions ExpressionType.NEUTRAL)
        (fun _ => 0) 2)[1]? ∧
    SpeechEngine.uniform_viseme (fun _ => 0) 0 = "closed" ∧
    SpeechEngine.uniform_viseme (fun _ => 0) 1 = "closed" ∧
    SpeechEngine.visemeKeys.length = 6 ∧
    SpeechEngine.get_talk_state (fun _ => (1:ℚ)/2) 0 = TalkState.PARTIAL ∧
    SpeechEngine.get_talk_state (fun _ => (1:ℚ)/2) 1 = TalkState.PARTIAL := by
  refine ⟨by decide, by decide, by decide, by decide, ?_, ?_⟩ <;>
    norm_num [SpeechEngine.get_talk_state, weightedChoice]

/-- C3 (amended): every interpolated frame coordinate of
`robot_face.py`'s `animate_transition` — of the POINT primitives from the
`draw.point` zip loop as much as of the LINE primitives from the `draw.line`
zip loop — equals the TRUNCATED (toward zero, i.e. floor on this nonnegative
grid) value of a + (b - a) * (i / steps) with the identity (linear) ease:
`int(...)`, not `round(...)`, and no smoothstep. Frame k's j-th point is the
pair-wise `interp_point` of the two catalogs' j-th points, and frame k's
j-th line is the pair-wise `interp_seg` of the two catalogs' j-th lines. -/
theorem C3_interpolation :
    ∀ (a b : ExpressionType) (steps : Int), steps ≠ 0 →
    ∀ (k : Nat), k < (steps + 1).toNat →
      ∃ frames frame,
        RobotFace.animate_transition a b steps = Except.ok frames ∧
        frames[k]? = some frame ∧
        (∀ (j : Nat) (p q : Coord),
          (RobotFace.expressions a).points[j]? = some p →
          (RobotFace.expressions b).points[j]? = some q →
          frame.points[j]? = some (RobotFace.interp_point p q (Int.ofNat k) steps)) ∧
        (∀ (j : Nat) (s t : Seg),
          (RobotFace.expressions a).lines[j]? = some s →
          (RobotFace.expressions b).lines[j]? = some t →
          frame.lines[j]? = some (RobotFace.interp_seg s t (Int.ofNat k) steps)) := by
  intro a b steps h0 k hk
  refine ⟨(pyRange (steps + 1)).map
      (fun i => RobotFace.transition_frame (RobotFace.expressions a)
        (RobotFace.expressions b) steps i),
    RobotFace.transition_frame (RobotFace.expressions a)
      (RobotFace.expressions b) steps (Int.ofNat k), ?_, ?_, ?_, ?_⟩
  · unfold RobotFace.animate_transition
    rw [if_neg h0]
  · unfold pyRange
    rw [List.map_map, List.getElem?_map, List.getElem?_range hk]
    rfl
  · intro j p q hp hq
    unfold RobotFace.transition_frame
    simp only
    exact getElem_zip_map (fun x y => RobotFace.interp_point x y (Int.ofNat k) steps)
      _ _ _ _ _ hp hq
  · intro j s t hs ht
    have hA : (RobotFace.expressions a).lines ≠ [] := by
      intro h'
      rw [h'] at hs
      simp at hs
    have hB : (RobotFace.expressions b).lines ≠ [] := by
      intro h'
      rw [h'] at ht
      simp at ht
    unfold RobotFace.transition_frame
    simp only
    rw [if_neg (by simp [hA, hB])]
    exact getElem_zip_map (fun x y => RobotFace.interp_seg x y (Int.ofNat k) steps)
      _ _ _ _ _ hs ht

/-- Witness for C3_interpolation: HAPPY → WINK with 2 steps, middle frame
(k = 1): the first zipped POINT pair (2,2) → (5,2) (where the exact middle x
is 3.5, so truncation and rounding differ), and the first line pair. -/
theorem C3_interpolation_witness :
    ∃ frames frame,
      RobotFace.animate_transition ExpressionType.HAPPY ExpressionType.WINK 2 =
        Except.ok frames ∧
      frames[1]? = some frame ∧
      frame.points[0]? = some (RobotFace.interp_point (2,2) (5,2) (Int.ofNat 1) 2) ∧
      frame.lines[0]? =
        some (RobotFace.interp_seg ((1,5),(6,5)) ((2,2),(2,2)) (Int.ofNat 1) 2) := by
  obtain ⟨frames, frame, h1, h2, hp, hl⟩ :=
    C3_interpolation ExpressionType.HAPPY ExpressionType.WINK 2 (by decide) 1 (by decide)
  exact ⟨frames, frame, h1, h2,
    hp 0 (2,2) (5,2) (by decide) (by decide),
    hl 0 ((1,5),(6,5)) ((2,2),(2,2)) (by decide) (by decide)⟩

/-- C3 counterexample: transitioning NEUTRAL → HAPPY with steps = 2, at the
middle frame (progress 1/2) the first line's start x interpolates from a = 2
(NEUTRAL) to b = 1 (HAPPY): the exact value is 1.5, the code draws
int(1.5) = 1, but the claimed formula round(a + (b-a)*ease(1/2)) gives 2 for
BOTH admissible eases (identity and smoothstep) — the drawn coordinate is
not round(...) under either ease. -/
theorem C3_counterexample :
    ((RobotFace.animate_transition ExpressionType.NEUTRAL ExpressionType.HAPPY 2).toOption.bind
        (fun fs => fs[1]?)).map (fun f => f.lines[0]?) =
      some (some (((1,5),(5,5)) : Seg)) ∧
    spec_round_linear 2 1 1 2 = 2 ∧
    spec_round_smoothstep 2 1 1 2 = 2 := by
  decide

/-- C4: `say_phrase(HAPPY, "Hi", wpm=150)` derives the viseme sequence
["open", "wide"] from the letters H and i, computes the total speaking time
as word_count * 60 / wpm = 1 * 60 / 150 = 2/5 s (0.4 s), and holds each of
the 2 visemes for (2/5) / 2 = 1/5 s (0.2 s). -/
theorem C4_say_hi_timing :
    SpeechEngine.LETTER_TO_VISEME 'H' = some "open" ∧
    SpeechEngine.LETTER_TO_VISEME 'i' = some "wide" ∧
    SpeechEngine.viseme_sequence "Hi" = ["open", "wide"] ∧
    SpeechEngine.word_count "Hi" = 1 ∧
    SpeechEngine.total_time "Hi" 150 = 2/5 ∧
    SpeechEngine.viseme_time "Hi" 150 = 1/5 ∧
    (SpeechEngine.say_frames (FacialExpressions.expressions ExpressionType.HAPPY)
      "Hi").length = 2 := by
  have hwc : SpeechEngine.word_count "Hi" = 1 := by decide
  have hlen : (SpeechEngine.viseme_sequence "Hi").length = 2 := by decide
  have htt : SpeechEngine.total_time "Hi" 150 = 2/5 := by
    norm_num [SpeechEngine.total_time, hwc]
  refine ⟨by decide, by decide, by decide, hwc, htt, ?_, by decide⟩
  norm_num [SpeechEngine.viseme_time, htt, hlen]

/-- C5 (amended): `_draw_viseme` draws exactly the expression's lines whose
BOTH endpoints lie above the mouth-row boundary (y < 5) unchanged, plus the
mouth shape looked up in `VISEME_MOUTHS` for the given tag — but the fallback
when no entry exists for the tag is the fixed global "neutral" viseme mouth,
NOT the expression's own default static mouth (see the counterexample). -/
theorem C5_draw_viseme :
    ∀ (expr : Expression) (v : String),
      (∀ l : Seg, l ∈ SpeechEngine.draw_viseme expr v ↔
        ((l ∈ expr.lines ∧ l.1.2 < 5 ∧ l.2.2 < 5) ∨ l ∈ SpeechEngine.mouth_for v)) ∧
      (List.lookup v SpeechEngine.VISEME_MOUTHS = none →
        SpeechEngine.mouth_for v = SpeechEngine.neutral_mouth) ∧
      List.lookup "neutral" SpeechEngine.VISEME_MOUTHS =
        some SpeechEngine.neutral_mouth := by
  intro expr v
  refine ⟨?_, ?_, by decide⟩
  · intro l
    simp [SpeechEngine.draw_viseme, List.mem_filter, List.mem_append, and_assoc]
  · intro h
    simp [SpeechEngine.mouth_for, h]

/-- Witness for C5_draw_viseme: the tag "hello" has no table entry, so the
mouth drawn is the neutral fallback. -/
theorem C5_draw_viseme_witness :
    SpeechEngine.mouth_for "hello" = SpeechEngine.neutral_mouth :=
  (C5_draw_viseme (FacialExpressions.expressions ExpressionType.HAPPY) "hello").2.1
    (by decide)

/-- C5 counterexample: for HAPPY and the tag "hi" (no per-tag variant exists),
the expression's own static mouth line ((2,7),(5,7)) is a line of HAPPY below
the eye boundary, yet it is NOT drawn by `_draw_viseme` — the fallback is the
global neutral mouth, not the expression's default static mouth as claimed. -/
theorem C5_counterexample :
    List.lookup "hi" SpeechEngine.VISEME_MOUTHS = none ∧
    (((2,7),(5,7)) : Seg) ∈ (FacialExpressions.expressions ExpressionType.HAPPY).lines ∧
    decide ((((2,7),(5,7)) : Seg) ∈
      SpeechEngine.draw_viseme (FacialExpressions.expressions ExpressionType.HAPPY)
        "hi") = false := by
  decide

/-- C6: `talk()` of `virtual-face/robot_face.py` on an expression whose
catalog entry has no `talk_lines` (e.g. SAD, ANGRY in the point/line
catalog) fails with the unsupported-expression error; the check precedes the
animation loop, so the error result carries no drawn frame. -/
theorem C6_talk_unsupported :
    ∀ (e : ExpressionType) (n : Nat) (rand : Nat → ℚ),
      (RobotFace.expressions e).talk_lines = [] →
      RobotFace.talk e n rand = Except.error TalkError.unsupported := by
  intro e n rand h
  unfold RobotFace.talk
  rw [if_pos h]

/-- Witness for C6_talk_unsupported at SAD. -/
theorem C6_talk_unsupported_witness :
    RobotFace.talk ExpressionType.SAD 3 (fun _ => 1/2) =
      Except.error TalkError.unsupported :=
  C6_talk_unsupported ExpressionType.SAD 3 (fun _ => 1/2) (by decide)

/-- C7 (amended): there is no steps validation at all. In `robot_face.py`,
steps = 0 fails with an (unvalidated) ZeroDivisionError from
`duration / steps` before any frame is drawn, and steps < 0 silently draws
NO frames and raises nothing; in `expressions.py`, any steps ≤ 0 draws the
target expression once and raises nothing. No `InvalidParameterError`-style
check exists. -/
theorem C7_no_validation :
    ∀ (a b : ExpressionType),
      RobotFace.animate_transition a b 0 = Except.error TransError.zeroDivision ∧
      (∀ steps : Int, steps < 0 →
        RobotFace.animate_transition a b steps = Except.ok []) ∧
      (∀ steps : Int, steps ≤ 0 →
        FacialExpressions.animate_transition a b steps =
          [FacialExpressions.draw_expression b]) := by
  intro a b
  refine ⟨rfl, ?_, ?_⟩
  · intro steps h
    unfold RobotFace.animate_transition
    rw [if_neg (by omega)]
    have h0 : (steps + 1).toNat = 0 := by omega
    simp [pyRange, h0]
  · intro steps h
    unfold FacialExpressions.animate_transition
    have h0 : steps.toNat = 0 := by omega
    simp [pyRange, h0]

/-- Witness for C7_no_validation at HAPPY → NEUTRAL with steps = -2. -/
theorem C7_no_validation_witness :
    RobotFace.animate_transition ExpressionType.HAPPY ExpressionType.NEUTRAL (-2) =
      Except.ok [] :=
  (C7_no_validation ExpressionType.HAPPY ExpressionType.NEUTRAL).2.1 (-2) (by decide)

/-- C7 counterexample: `expressions.py`'s transition with steps = 0 succeeds
and DRAWS the target frame (no error of any kind), and `robot_face.py`'s
transition with steps = -1 succeeds drawing nothing — `steps <= 0` does not
fail with InvalidParameterError, and a drawing side effect does occur in the
former case. -/
theorem C7_counterexample :
    FacialExpressions.animate_transition ExpressionType.HAPPY ExpressionType.SAD 0 =
      [FacialExpressions.draw_expression ExpressionType.SAD] ∧
    RobotFace.animate_transition ExpressionType.HAPPY ExpressionType.SAD (-1) =
      Except.ok [] := by
  exact ⟨rfl, rfl⟩

/-- C8: the claim says the letter table maps every letter of the alphabet;
the code's own comment on the "open" class lists Y among its letters, but
the string `"CDGKNSZLQXHJRTcdgknszlqxhjrt"` omits y/Y, so 'y' and 'Y' fall
through to the "neutral" default used for non-letters, while every other
letter is mapped. -/
theorem C8_letter_y_missing :
    SpeechEngine.LETTER_TO_VISEME 'y' = none ∧
    SpeechEngine.LETTER_TO_VISEME 'Y' = none ∧
    SpeechEngine.viseme_sequence "y" = ["neutral"] ∧
    ("abcdefghijklmnopqrstuvwxz".toList.all
      (fun c => (SpeechEngine.LETTER_TO_VISEME c).isSome)) = true ∧
    ("ABCDEFGHIJKLMNOPQRSTUVWXZ".toList.all
      (fun c => (SpeechEngine.LETTER_TO_VISEME c).isSome)) = true := by
  decide

/-- C9 (amended): `MatrixDisplay.draw_lines` renders each segment as its
straight-line rasterization EXCEPT when both coordinate deltas are nonzero
and equal in magnitude (`is_rectangle`), in which case the segment is drawn
as the FILLED axis-aligned rectangle spanning its endpoints; a degenerate
segment (start = end) is never rectangle-classified and renders as the
single pixel. -/
theorem C9_draw_lines_dispatch :
    ∀ (s e : Coord),
      (s = e → MatrixDisplay.draw_segment s e = [s]) ∧
      (MatrixDisplay.is_rectangle s e = false →
        MatrixDisplay.draw_segment s e = line_pixels s e) ∧
      (MatrixDisplay.is_rectangle s e = true →
        MatrixDisplay.draw_segment s e = MatrixDisplay.rectangle_pixels s e) ∧
      MatrixDisplay.draw_lines [(s, s)] = [s] := by
  intro s e
  have hdeg : ∀ t : Coord, MatrixDisplay.draw_segment t t = [t] := by
    intro t
    simp [MatrixDisplay.draw_segment, MatrixDisplay.is_rectangle, line_pixels]
  refine ⟨?_, ?_, ?_, ?_⟩
  · intro h
    subst h
    exact hdeg s
  · intro h
    unfold MatrixDisplay.draw_segment
    rw [h]
    rfl
  · intro h
    unfold MatrixDisplay.draw_segment
    rw [h]
    rfl
  · simp [MatrixDisplay.draw_lines, hdeg s]

/-- Witness for C9_draw_lines_dispatch: the oblique non-45-degree segment
(0,0)-(3,1) is not rectangle-classified and renders as its line raster. -/
theorem C9_draw_lines_dispatch_witness :
    MatrixDisplay.draw_segment (0,0) (3,1) = line_pixels (0,0) (3,1) :=
  (C9_draw_lines_dispatch (0,0) (3,1)).2.1 (by decide)

/-- C9 counterexample: the 45-degree segment (0,0)-(2,2) is drawn by
`draw_lines` as a filled 3x3 rectangle: the off-line pixel (1,0) is lit,
although the straight-line rasterization between the endpoints is exactly
[(0,0),(1,1),(2,2)] — the segment is rendered as something other than its
straight line. -/
theorem C9_counterexample :
    ((1,0) : Coord) ∈ MatrixDisplay.draw_lines [((0,0),(2,2))] ∧
    decide (((1,0) : Coord) ∈ line_pixels (0,0) (2,2)) = false ∧
    line_pixels (0,0) (2,2) = [(0,0),(1,1),(2,2)] := by
  decide

/-- C10: every expression of the `expressions.py` catalog has a nonempty
`talk_lines` table with an entry for each of the three talk states OPEN,
PARTIAL and CLOSED, and each entry's line list contains every eye line of the
expression (every line of `lines` with both endpoints above the mouth rows,
y < 5) — the eyes stay drawn in every talk state and talk is supported for
the whole catalog. -/
theorem C10_talk_lines_complete :
    ∀ e : ExpressionType,
      (FacialExpressions.expressions e).talk_lines ≠ [] ∧
      ∀ st : TalkState, ∃ ls,
        List.lookup st (FacialExpressions.expressions e).talk_lines = some ls ∧
        ∀ l ∈ (FacialExpressions.expressions e).lines,
          l.1.2 < 5 → l.2.2 < 5 → l ∈ ls := by
  intro e
  refine ⟨?_, ?_⟩
  · cases e <;> decide
  · intro st
    cases e <;> cases st <;> exact ⟨_, rfl, by decide⟩

/-- Witness for C10_talk_lines_complete: HAPPY's OPEN entry contains the
first left-eye line ((0,1),(2,1)). -/
theorem C10_talk_lines_complete_witness :
    ∃ ls,
      List.lookup TalkState.OPEN
        (FacialExpressions.expressions ExpressionType.HAPPY).talk_lines = some ls ∧
      (((0,1),(2,1)) : Seg) ∈ ls := by
  obtain ⟨ls, h1, h2⟩ :=
    (C10_talk_lines_complete ExpressionType.HAPPY).2 TalkState.OPEN
  exact ⟨ls, h1, h2 ((0,1),(2,1)) (by decide) (by decide) (by decide)⟩
